import Mathlib

/-!
Verification development for `time_entry_rounding.py` (toggl-round).

Embedding conventions:
* A timezone-aware `datetime.datetime` is modelled by `Datetime`: `sec` is the
  number of whole seconds since 0001-01-01T00:00:00 on the entry's wall clock
  (all entries share one fixed UTC offset, as the Toggl API returns), `micro`
  is the sub-second component in microseconds.  All clock fields (`second`,
  `minute`, `hour`, `date()`) are derived from `sec`; adding a `timedelta`
  is addition on `sec`, which is exactly Python's fixed-offset arithmetic and
  automatically carries across hour/day/month/year boundaries.
* A calendar-day key (`start.date().isoformat()` in the source) is modelled by
  the ordinal date `sec / 86400` (days since 0001-01-01); ISO date strings are
  in bijection with these ordinals, and the source only compares keys.
* Python exceptions are modelled by `Except PyErr`; an attribute access on an
  object that may lack the attribute goes through `attr_get`.
* `dateutil.parser.parse` is an external collaborator; a raw timestamp string
  is abstracted by `RawTs`: either `valid dt` (the instant the string denotes)
  or `invalid` (a string the parser rejects, raising its parse error).
-/

/-- Python exception classes that the script can raise. -/
inductive PyErr where
  /-- `dateutil` parse failure on a malformed timestamp string. -/
  | parseError
  /-- comparison of incompatible types, e.g. `datetime > date`. -/
  | typeError
  /-- attribute access on an object lacking the attribute (incl. `None`). -/
  | attributeError
  /-- reference to a name that is not defined at module scope. -/
  | nameError
deriving DecidableEq, Repr

/-- A timezone-aware instant: whole seconds since 0001-01-01T00:00:00 on the
(shared, fixed-offset) wall clock, plus microseconds. -/
structure Datetime where
  sec : Nat
  micro : Nat
deriving DecidableEq, Repr

namespace Datetime

/-- `dt.second` in Python. -/
def second (dt : Datetime) : Nat := dt.sec % 60

/-- `dt.minute` in Python. -/
def minute (dt : Datetime) : Nat := dt.sec / 60 % 60

/-- `dt.hour` in Python. -/
def hour (dt : Datetime) : Nat := dt.sec / 3600 % 24

/-- `dt.date()` in Python, as the ordinal day since 0001-01-01; stands for the
ISO date string `dt.date().isoformat()`, with which it is in bijection. -/
def dateOrd (dt : Datetime) : Nat := dt.sec / 86400

/-- Python `<` on aware datetimes: lexicographic on (seconds, microseconds). -/
def lt (a b : Datetime) : Bool := a.sec < b.sec || (a.sec == b.sec && a.micro < b.micro)

/-- `dt + timedelta(seconds=n)`; fixed-offset arithmetic is instant
arithmetic.  The model assumes the result stays inside the datetime range,
where Python would raise `OverflowError`. -/
def addSeconds (dt : Datetime) (n : Int) : Datetime :=
  ⟨((dt.sec : Int) + n).toNat, dt.micro⟩

end Datetime

/-- Gregorian leap-year test. -/
def isLeap (y : Nat) : Bool := (y % 4 == 0 && y % 100 != 0) || y % 400 == 0

/-- Days in the months strictly before month `m` (1-based) of year `y`. -/
def daysBeforeMonth (y m : Nat) : Nat :=
  [0, 31, 59, 90, 120, 151, 181, 212, 243, 273, 304, 334].getD (m - 1) 0
    + (if 2 < m && isLeap y then 1 else 0)

/-- Ordinal day (days since 0001-01-01) of the civil date `y-m-d`. -/
def dateOrdOfCivil (y m d : Nat) : Nat :=
  (y - 1) * 365 + (y - 1) / 4 - (y - 1) / 100 + (y - 1) / 400
    + daysBeforeMonth y m + (d - 1)

/-- Build the instant `y-mo-d h:mi:s` (zero microseconds). -/
def mkDt (y mo d h mi s : Nat) : Datetime :=
  ⟨dateOrdOfCivil y mo d * 86400 + h * 3600 + mi * 60 + s, 0⟩

/-- Abstraction of a raw timestamp string handed to `dateutil.parser.parse`:
either the aware instant the string denotes, or a string the parser rejects. -/
inductive RawTs where
  | valid (dt : Datetime)
  | invalid
deriving DecidableEq, Repr

/-- Models `dateutil.parser.parse` (external collaborator): returns the
denoted instant, or raises its parse error on a malformed string. -/
def parseTs : RawTs → Except PyErr Datetime
  | .valid dt => .ok dt
  | .invalid => .error .parseError

/-- Attribute access `obj.attr` where the attribute may be missing (or the
object may be `None`): Python raises `AttributeError`. -/
def attr_get {α : Type} : Option α → Except PyErr α
  | some a => .ok a
  | none => .error .attributeError

/-- One Toggl time entry, as built by `TimeEntry.__init__`.  An `Option`
field is `none` exactly when the Python attribute is absent (for
`start`/`stop`/`duration`) or set to `None` (for the passthrough fields;
the source never uses attribute-presence tests on those). -/
structure TimeEntry where
  description : Option String
  tags : Option (List String)
  start : Option Datetime
  stop : Option Datetime
  duration : Option Int
  duronly : Option Bool
  pid : Option Int
  billable : Option Bool
  guid : Option String
  at_field : Option String
  wid : Option Int
  id : Option Int
  uid : Option Int
deriving DecidableEq, Repr

namespace TimeEntry

/-- `TimeEntry._truncate_seconds`: `dt.replace(second=0, microsecond=0)`. -/
def truncate_seconds (dt : Datetime) : Datetime :=
  ⟨dt.sec - dt.sec % 60, 0⟩

/-- `TimeEntry._round_to_quarter_hour`:
`round_minutes = ((dt.minute + 7) // 15) * 15` then
`dt + timedelta(minutes=round_minutes - dt.minute)` (the shift may be
negative; the sum below never underflows since `dt.sec ≥ dt.minute * 60`). -/
def round_to_quarter_hour (dt : Datetime) : Datetime :=
  ⟨dt.sec + (dt.sec / 60 % 60 + 7) / 15 * 15 * 60 - dt.sec / 60 % 60 * 60, dt.micro⟩

/-- The boundary normalization applied in `__init__`:
`_round_to_quarter_hour(_truncate_seconds(parse(s)))`. -/
def normalize_ts (dt : Datetime) : Datetime :=
  round_to_quarter_hour (truncate_seconds dt)

/-- `(a - b).seconds` in Python: the seconds component of the normalized
`timedelta`, i.e. the floor-quotient of the difference in microseconds by
10^6, reduced modulo 86400 (always in `[0, 86400)`). -/
def timedeltaSeconds (a b : Datetime) : Int :=
  (((a.sec : Int) * 1000000 + a.micro - ((b.sec : Int) * 1000000 + b.micro)).fdiv 1000000).emod 86400

/-- `TimeEntry.__init__`.  Parameters appear in the source's keyword order
`(start, stop, duronly, pid, billable, guid, at, wid, id, uid, description,
duration, tags)`.  `start`/`stop` are raw strings fed to
`parse`/`_truncate_seconds`/`_round_to_quarter_hour`; `duration` is stored
only when both boundaries were provided, as `(self.stop - self.start).seconds`;
the `duration` argument itself is never read by the source body. -/
def init (start stop : Option RawTs) (duronly : Option Bool) (pid : Option Int)
    (billable : Option Bool) (guid : Option String) (at_field : Option String)
    (wid : Option Int) (id : Option Int) (uid : Option Int)
    (description : Option String) (duration : Option Int)
    (tags : Option (List String)) : Except PyErr TimeEntry := do
  let startv : Option Datetime ← match start with
    | none => pure none
    | some r => do
        let dt ← parseTs r
        pure (some (round_to_quarter_hour (truncate_seconds dt)))
  let stopv : Option Datetime ← match stop with
    | none => pure none
    | some r => do
        let dt ← parseTs r
        pure (some (round_to_quarter_hour (truncate_seconds dt)))
  let durv : Option Int :=
    match start, stop with
    | some _, some _ => some (timedeltaSeconds (stopv.getD ⟨0, 0⟩) (startv.getD ⟨0, 0⟩))
    | _, _ => none
  pure ⟨description, tags, startv, stopv, durv, duronly, pid, billable, guid,
        at_field, wid, id, uid⟩

end TimeEntry

instance {ε α : Type} [DecidableEq ε] [DecidableEq α] : DecidableEq (Except ε α) := fun a b =>
  match a, b with
  | .error x, .error y => decidable_of_iff (x = y) (by simp)
  | .ok x, .ok y => decidable_of_iff (x = y) (by simp)
  | .error _, .ok _ => isFalse (fun h => Except.noConfusion h)
  | .ok _, .error _ => isFalse (fun h => Except.noConfusion h)

/-- Python dict assignment `m[k] = m.get(k, 0) + v` on an insertion-ordered
association list: update in place when the key is present, append otherwise. -/
def updateAdd (m : List (Nat × Int)) (k : Nat) (v : Int) : List (Nat × Int) :=
  if m.any (fun p => p.fst == k) then
    m.map (fun p => if p.fst = k then (p.fst, p.snd + v) else p)
  else m ++ [(k, v)]

/-- First-match lookup in an insertion-ordered association list
(Python `m.get(k)`). -/
def lookupKey (m : List (Nat × Int)) (k : Nat) : Option Int :=
  match m with
  | [] => none
  | p :: t => if p.fst = k then some p.snd else lookupKey t k

/-- One loop iteration of `get_time_per_day`: read
`entry.start.date().isoformat()` and `entry.duration` (either attribute
access raises `AttributeError` when the attribute is absent — the source has
no guard for entries lacking `duration`), then do the dict update. -/
def gtpd_step (m : List (Nat × Int)) (e : TimeEntry) : Except PyErr (List (Nat × Int)) := do
  let s ← attr_get e.start
  let d ← attr_get e.duration
  pure (updateAdd m s.dateOrd d)

/-- `get_time_per_day`: fold the entries into a day-keyed dict. -/
def get_time_per_day (entries : List TimeEntry) : Except PyErr (List (Nat × Int)) :=
  entries.foldlM gtpd_step []

/-- Stable insertion (by `start`, ascending) used to model Python `sorted`.
Ordering of the traversal never changes the result of
`get_last_time_for_day`, but the sort is kept to mirror the source. -/
def insertByStart (x : TimeEntry × Datetime) :
    List (TimeEntry × Datetime) → List (TimeEntry × Datetime)
  | [] => [x]
  | y :: ys => if Datetime.lt x.snd y.snd then x :: y :: ys else y :: insertByStart x ys

/-- Sort a list of (entry, start) pairs by start, ascending. -/
def sortByStart (l : List (TimeEntry × Datetime)) : List (TimeEntry × Datetime) :=
  l.foldr insertByStart []

/-- The running value of `latest_time` in `get_last_time_for_day`: it is
initialized to `date.min` (a `datetime.date`, not a `datetime.datetime`) and
only ever replaced by an entry's `stop` datetime. -/
inductive LatestVal where
  | date_min
  | dt (d : Datetime)
deriving DecidableEq, Repr

/-- `get_last_time_for_day(date_string, entries)` for the day key
`target_day` (the ordinal date the key string denotes).  The comprehension
`[e for e in entries if e.start.date() == target_date]` touches `e.start` of
every entry; the loop body compares `entry.stop > latest_time`, and comparing
an aware `datetime` with the initial `date.min` raises `TypeError` (CPython
refuses `datetime`-to-`date` ordering), so the comparison only succeeds once
`latest_time` already holds a datetime — which never happens.  With no entry
owning a `stop`, the final sentinel test returns `None`. -/
def get_last_time_for_day (target_day : Nat) (entries : List TimeEntry) :
    Except PyErr (Option Datetime) := do
  let withStarts ← entries.mapM (fun e => do
    let s ← attr_get e.start
    pure (e, s))
  let selected := withStarts.filter (fun p => p.snd.dateOrd == target_day)
  let latest ← (sortByStart selected).foldlM (fun (acc : LatestVal) p =>
    match p.fst.stop with
    | none => pure acc
    | some st =>
      match acc with
      | .date_min => (Except.error PyErr.typeError : Except PyErr LatestVal)
      | .dt d => pure (if Datetime.lt d st then .dt st else .dt d)) LatestVal.date_min
  match latest with
  | .date_min => pure none
  | .dt d => pure (some d)

/-- `fill_with_admin_time` exactly as written: its first statement refers to
`_get_time_per_day`, a name not defined anywhere at module scope (the module
defines `get_time_per_day`; likewise `_get_last_time_for_day` and the free
`_round_to_quarter_hour`), so every call raises `NameError` before any entry
is examined. -/
def fill_with_admin_time_as_written (entries : List TimeEntry) :
    Except PyErr (List TimeEntry) :=
  Except.error PyErr.nameError

/-- `fill_with_admin_time` with the three undefined names resolved to the
module-level `get_time_per_day`, `get_last_time_for_day` and the
`TimeEntry._round_to_quarter_hour` method they evidently denote: for each
aggregated day below 8 hours, look up the latest stop, and build an "Admin"
`TimeEntry` from `last_time.isoformat()` and
`_round_to_quarter_hour(last_time + timedelta(seconds=needed)).isoformat()`
with `wid=876389`, `pid=12780480`.  When `get_last_time_for_day` returns
`None`, the call `last_time.isoformat()` raises `AttributeError`. -/
def fill_with_admin_time (entries : List TimeEntry) : Except PyErr (List TimeEntry) := do
  let time_per_day ← get_time_per_day entries
  time_per_day.foldlM (fun (admin_entries : List TimeEntry) kv => do
    if kv.snd < 28800 then do
      let additional_time_needed : Int := 28800 - kv.snd
      let last_time_opt ← get_last_time_for_day kv.fst entries
      let last_time ← attr_get last_time_opt
      let entry ← TimeEntry.init
        (some (RawTs.valid last_time))
        (some (RawTs.valid (TimeEntry.round_to_quarter_hour
          (last_time.addSeconds additional_time_needed))))
        none (some 12780480) none none none (some 876389) none none
        (some "Admin") none none
      pure (admin_entries ++ [entry])
    else pure admin_entries) []

/-- A normalized, finished entry: 2024-03-09 09:00 to 10:00, duration 3600 s. -/
def ce_done : TimeEntry :=
  ⟨some "work", none, some (mkDt 2024 3 9 9 0 0), some (mkDt 2024 3 9 10 0 0),
   some 3600, none, none, none, none, none, none, none, none⟩

/-- A running entry (start only, no `stop` and no `duration` attribute). -/
def ce_running : TimeEntry :=
  ⟨some "run", none, some (mkDt 2024 3 9 11 0 0), none, none,
   none, none, none, none, none, none, none, none⟩

/-- A finished entry covering only five hours of 2024-03-09. -/
def ce_short : TimeEntry :=
  ⟨some "dev", none, some (mkDt 2024 3 9 9 0 0), some (mkDt 2024 3 9 14 0 0),
   some 18000, none, none, none, none, none, none, none, none⟩

/-- An object carrying a `duration` but no `stop`: its day aggregates to a
shortfall yet offers no anchor stop time (the shape claim C6 quantifies
over; the `TimeEntry` constructor itself never produces it). -/
def ce_no_anchor : TimeEntry :=
  ⟨some "odd", none, some (mkDt 2024 3 11 8 0 0), none, some 14400,
   none, none, none, none, none, none, none, none⟩

/-- Observer: the day key of an entry (meaningful when `start` is present). -/
def startDay (e : TimeEntry) : Nat := (e.start.getD ⟨0, 0⟩).dateOrd

/-- Observer: the duration of an entry (meaningful when present). -/
def durOf (e : TimeEntry) : Int := e.duration.getD 0

/-- Observer: does the entry's start fall on day `k`? -/
def onDay (k : Nat) (e : TimeEntry) : Bool := startDay e == k

/-- Sum of the durations of the entries whose start falls on day `k`. -/
def dayTotal (entries : List TimeEntry) (k : Nat) : Int :=
  ((entries.filter (onDay k)).map durOf).sum

/-- The total for day `k`, or `none` when no entry starts on day `k`. -/
def dayTotalOpt (entries : List TimeEntry) (k : Nat) : Option Int :=
  if entries.any (onDay k) then some (dayTotal entries k) else none

/-- Lookup of day `k` in the result of the aggregator, or `none` when the
aggregator raised. -/
def lookupResult (r : Except PyErr (List (Nat × Int))) (k : Nat) : Option (Option Int) :=
  match r with
  | .error _ => none
  | .ok m => some (lookupKey m k)

/-- The pure step of the aggregation fold, for entries whose attributes are
all present. -/
def stepAdd (m : List (Nat × Int)) (e : TimeEntry) : List (Nat × Int) :=
  updateAdd m (startDay e) (durOf e)

/-- Combine a previous total with an optional additional total. -/
def combineOpt : Option Int → Option Int → Option Int
  | a, none => a
  | some a, some b => some (a + b)
  | none, some b => some b

/-- Is the result a success? -/
def isOkE {ε α : Type} : Except ε α → Bool
  | .ok _ => true
  | .error _ => false


theorem lookupKey_map_bump (m : List (Nat × Int)) (k q : Nat) (v : Int) (h : q ≠ k) :
    lookupKey (m.map (fun p => if p.fst = k then (p.fst, p.snd + v) else p)) q
      = lookupKey m q := by
  induction m with
  | nil => rfl
  | cons p t ih =>
    by_cases hpk : p.fst = k
    · have hpq : ¬ p.fst = q := by rw [hpk]; intro hc; exact h hc.symm
      simp only [List.map_cons, if_pos hpk, lookupKey, if_neg hpq]
      exact ih
    · simp only [List.map_cons, if_neg hpk, lookupKey]
      by_cases hpq : p.fst = q
      · rw [if_pos hpq, if_pos hpq]
      · rw [if_neg hpq, if_neg hpq]; exact ih

theorem lookupKey_map_bump_self (m : List (Nat × Int)) (k : Nat) (v : Int)
    (hany : m.any (fun p => p.fst == k) = true) :
    lookupKey (m.map (fun p => if p.fst = k then (p.fst, p.snd + v) else p)) k
      = some ((lookupKey m k).getD 0 + v) := by
  induction m with
  | nil => simp at hany
  | cons p t ih =>
    by_cases hpk : p.fst = k
    · simp only [List.map_cons, if_pos hpk, lookupKey, if_pos rfl, if_pos hpk]
      rfl
    · have hat : t.any (fun p => p.fst == k) = true := by
        simpa [List.any_cons, hpk] using hany
      simp only [List.map_cons, if_neg hpk, lookupKey, if_neg hpk]
      exact ih hat

theorem lookupKey_append_single (m : List (Nat × Int)) (k q : Nat) (v : Int)
    (h : q ≠ k) : lookupKey (m ++ [(k, v)]) q = lookupKey m q := by
  induction m with
  | nil =>
    have hkq : ¬ k = q := fun hc => h hc.symm
    simp [lookupKey, hkq]
  | cons p t ih =>
    by_cases hpq : p.fst = q
    · simp only [List.cons_append, lookupKey, if_pos hpq]
    · simp only [List.cons_append, lookupKey, if_neg hpq]; exact ih

theorem lookupKey_append_self (m : List (Nat × Int)) (k : Nat) (v : Int)
    (h : m.any (fun p => p.fst == k) = false) :
    lookupKey (m ++ [(k, v)]) k = some v := by
  induction m with
  | nil => simp [lookupKey]
  | cons p t ih =>
    have hp : ¬ p.fst = k := by intro hc; simp [List.any_cons, hc] at h
    have ht : t.any (fun p => p.fst == k) = false := by
      simpa [List.any_cons, hp] using h
    simp only [List.cons_append, lookupKey, if_neg hp]
    exact ih ht

theorem lookupKey_none_of_any_false (m : List (Nat × Int)) (k : Nat)
    (h : m.any (fun p => p.fst == k) = false) : lookupKey m k = none := by
  induction m with
  | nil => rfl
  | cons p t ih =>
    have hp : ¬ p.fst = k := by intro hc; simp [List.any_cons, hc] at h
    have ht : t.any (fun p => p.fst == k) = false := by
      simpa [List.any_cons, hp] using h
    simp only [lookupKey, if_neg hp]
    exact ih ht

theorem lookupKey_updateAdd_self (m : List (Nat × Int)) (k : Nat) (v : Int) :
    lookupKey (updateAdd m k v) k = some ((lookupKey m k).getD 0 + v) := by
  by_cases hany : m.any (fun p => p.fst == k) = true
  · rw [updateAdd, if_pos hany, lookupKey_map_bump_self m k v hany]
  · have hfalse : m.any (fun p => p.fst == k) = false := Bool.eq_false_iff.mpr hany
    rw [updateAdd, if_neg hany, lookupKey_append_self m k v hfalse,
        lookupKey_none_of_any_false m k hfalse]
    simp

theorem lookupKey_updateAdd_ne (m : List (Nat × Int)) (k q : Nat) (v : Int)
    (h : q ≠ k) : lookupKey (updateAdd m k v) q = lookupKey m q := by
  by_cases hany : m.any (fun p => p.fst == k) = true
  · rw [updateAdd, if_pos hany]; exact lookupKey_map_bump m k q v h
  · rw [updateAdd, if_neg hany]; exact lookupKey_append_single m k q v h

theorem dayTotal_cons_onDay (e : TimeEntry) (t : List TimeEntry) (k : Nat)
    (h : onDay k e = true) : dayTotal (e :: t) k = durOf e + dayTotal t k := by
  simp [dayTotal, List.filter_cons, h]

theorem dayTotal_cons_off (e : TimeEntry) (t : List TimeEntry) (k : Nat)
    (h : onDay k e = false) : dayTotal (e :: t) k = dayTotal t k := by
  simp [dayTotal, List.filter_cons, h]

theorem dayTotal_eq_zero_of_any_false (t : List TimeEntry) (k : Nat)
    (h : t.any (onDay k) = false) : dayTotal t k = 0 := by
  have hnil : t.filter (onDay k) = [] := by
    rw [List.filter_eq_nil_iff]
    intro a ha
    have := List.any_eq_false.mp h a ha
    simpa using this
  simp [dayTotal, hnil]

theorem lookupKey_foldl_stepAdd (l : List TimeEntry) (m : List (Nat × Int)) (k : Nat) :
    lookupKey (l.foldl stepAdd m) k = combineOpt (lookupKey m k) (dayTotalOpt l k) := by
  induction l generalizing m with
  | nil =>
    have : dayTotalOpt [] k = none := by simp [dayTotalOpt]
    rw [List.foldl_nil, this]
    cases lookupKey m k <;> rfl
  | cons e t ih =>
    rw [List.foldl_cons, ih (stepAdd m e)]
    by_cases hd : onDay k e = true
    · have hk : startDay e = k := by simpa [onDay] using hd
      have hstep : lookupKey (stepAdd m e) k = some ((lookupKey m k).getD 0 + durOf e) := by
        rw [stepAdd, hk]; exact lookupKey_updateAdd_self m k (durOf e)
      have hcons : dayTotalOpt (e :: t) k = some (durOf e + dayTotal t k) := by
        simp [dayTotalOpt, List.any_cons, hd, dayTotal_cons_onDay e t k hd]
      rw [hstep, hcons]
      by_cases hat : t.any (onDay k) = true
      · rw [dayTotalOpt, if_pos hat]
        cases hmk : lookupKey m k <;> (simp [combineOpt]; try omega)
      · have h0 : dayTotal t k = 0 :=
          dayTotal_eq_zero_of_any_false t k (Bool.eq_false_iff.mpr hat)
        rw [dayTotalOpt, if_neg hat, h0]
        cases hmk : lookupKey m k <;> simp [combineOpt]
    · have hk : ¬ startDay e = k := by simpa [onDay] using hd
      have hstep : lookupKey (stepAdd m e) k = lookupKey m k := by
        rw [stepAdd]
        exact lookupKey_updateAdd_ne m (startDay e) k (durOf e) (fun hc => hk hc.symm)
      have hcons : dayTotalOpt (e :: t) k = dayTotalOpt t k := by
        have hdf : onDay k e = false := Bool.eq_false_iff.mpr hd
        simp [dayTotalOpt, List.any_cons, hdf, dayTotal_cons_off e t k hdf]
      rw [hstep, hcons]

theorem gtpd_step_ok (m : List (Nat × Int)) (e : TimeEntry) (s : Datetime) (d : Int)
    (hs : e.start = some s) (hd : e.duration = some d) :
    gtpd_step m e = Except.ok (updateAdd m s.dateOrd d) := by
  simp only [gtpd_step, hs, hd]
  rfl

theorem gtpd_step_err_start (m : List (Nat × Int)) (e : TimeEntry)
    (hs : e.start = none) : gtpd_step m e = Except.error PyErr.attributeError := by
  simp only [gtpd_step, hs]
  rfl

theorem gtpd_step_err_dur (m : List (Nat × Int)) (e : TimeEntry) (s : Datetime)
    (hs : e.start = some s) (hd : e.duration = none) :
    gtpd_step m e = Except.error PyErr.attributeError := by
  simp only [gtpd_step, hs, hd]
  rfl

theorem foldlM_gtpd_ok (l : List TimeEntry) (m : List (Nat × Int))
    (h : ∀ e ∈ l, e.start.isSome ∧ e.duration.isSome) :
    List.foldlM gtpd_step m l = Except.ok (l.foldl stepAdd m) := by
  induction l generalizing m with
  | nil => rfl
  | cons e t ih =>
    obtain ⟨hs, hdur⟩ := h e (List.mem_cons_self e t)
    obtain ⟨s, hs'⟩ := Option.isSome_iff_exists.mp hs
    obtain ⟨d, hd'⟩ := Option.isSome_iff_exists.mp hdur
    rw [List.foldlM_cons, gtpd_step_ok m e s d hs' hd', List.foldl_cons]
    have hstep : stepAdd m e = updateAdd m s.dateOrd d := by
      simp [stepAdd, startDay, durOf, hs', hd']
    rw [hstep]
    show List.foldlM gtpd_step (updateAdd m s.dateOrd d) t = _
    exact ih _ (fun x hx => h x (List.mem_cons_of_mem e hx))

theorem foldlM_gtpd_err (l : List TimeEntry) (m : List (Nat × Int))
    (h : ∃ e ∈ l, e.start = none ∨ e.duration = none) :
    List.foldlM gtpd_step m l = Except.error PyErr.attributeError := by
  induction l generalizing m with
  | nil => simp at h
  | cons e t ih =>
    rw [List.foldlM_cons]
    cases hs : e.start with
    | none => rw [gtpd_step_err_start m e hs]; rfl
    | some s =>
      cases hdur : e.duration with
      | none => rw [gtpd_step_err_dur m e s hs hdur]; rfl
      | some d =>
        rw [gtpd_step_ok m e s d hs hdur]
        show List.foldlM gtpd_step (updateAdd m s.dateOrd d) t = _
        apply ih
        rcases h with ⟨x, hx, hbad⟩
        rcases List.mem_cons.mp hx with rfl | hxt
        · rcases hbad with h1 | h2
          · rw [hs] at h1; cases h1
          · rw [hdur] at h2; cases h2
        · exact ⟨x, hxt, hbad⟩

theorem init_none_none (duronly : Option Bool) (pid : Option Int)
    (billable : Option Bool) (guid : Option String) (at_field : Option String)
    (wid idv uid : Option Int) (description : Option String) (dur : Option Int)
    (tags : Option (List String)) :
    TimeEntry.init none none duronly pid billable guid at_field wid idv uid
        description dur tags
      = Except.ok ⟨description, tags, none, none, none, duronly, pid, billable,
          guid, at_field, wid, idv, uid⟩ := rfl

theorem init_start_only (sdt : Datetime) (duronly : Option Bool) (pid : Option Int)
    (billable : Option Bool) (guid : Option String) (at_field : Option String)
    (wid idv uid : Option Int) (description : Option String) (dur : Option Int)
    (tags : Option (List String)) :
    TimeEntry.init (some (RawTs.valid sdt)) none duronly pid billable guid
        at_field wid idv uid description dur tags
      = Except.ok ⟨description, tags, some (TimeEntry.normalize_ts sdt), none,
          none, duronly, pid, billable, guid, at_field, wid, idv, uid⟩ := rfl

theorem init_stop_only (pdt : Datetime) (duronly : Option Bool) (pid : Option Int)
    (billable : Option Bool) (guid : Option String) (at_field : Option String)
    (wid idv uid : Option Int) (description : Option String) (dur : Option Int)
    (tags : Option (List String)) :
    TimeEntry.init none (some (RawTs.valid pdt)) duronly pid billable guid
        at_field wid idv uid description dur tags
      = Except.ok ⟨description, tags, none, some (TimeEntry.normalize_ts pdt),
          none, duronly, pid, billable, guid, at_field, wid, idv, uid⟩ := rfl

theorem init_both_valid (sdt pdt : Datetime) (duronly : Option Bool) (pid : Option Int)
    (billable : Option Bool) (guid : Option String) (at_field : Option String)
    (wid idv uid : Option Int) (description : Option String) (dur : Option Int)
    (tags : Option (List String)) :
    TimeEntry.init (some (RawTs.valid sdt)) (some (RawTs.valid pdt)) duronly pid
        billable guid at_field wid idv uid description dur tags
      = Except.ok ⟨description, tags, some (TimeEntry.normalize_ts sdt),
          some (TimeEntry.normalize_ts pdt),
          some (TimeEntry.timedeltaSeconds (TimeEntry.normalize_ts pdt)
            (TimeEntry.normalize_ts sdt)),
          duronly, pid, billable, guid, at_field, wid, idv, uid⟩ := rfl

theorem init_start_invalid (stop : Option RawTs) (duronly : Option Bool)
    (pid : Option Int) (billable : Option Bool) (guid : Option String)
    (at_field : Option String) (wid idv uid : Option Int)
    (description : Option String) (dur : Option Int) (tags : Option (List String)) :
    TimeEntry.init (some RawTs.invalid) stop duronly pid billable guid at_field
        wid idv uid description dur tags
      = Except.error PyErr.parseError := rfl

theorem init_stop_invalid_after_valid (sdt : Datetime) (duronly : Option Bool)
    (pid : Option Int) (billable : Option Bool) (guid : Option String)
    (at_field : Option String) (wid idv uid : Option Int)
    (description : Option String) (dur : Option Int) (tags : Option (List String)) :
    TimeEntry.init (some (RawTs.valid sdt)) (some RawTs.invalid) duronly pid
        billable guid at_field wid idv uid description dur tags
      = Except.error PyErr.parseError := rfl

theorem init_stop_invalid_no_start (duronly : Option Bool) (pid : Option Int)
    (billable : Option Bool) (guid : Option String) (at_field : Option String)
    (wid idv uid : Option Int) (description : Option String) (dur : Option Int)
    (tags : Option (List String)) :
    TimeEntry.init none (some RawTs.invalid) duronly pid billable guid at_field
        wid idv uid description dur tags
      = Except.error PyErr.parseError := rfl

theorem normalize_ts_fields (dt : Datetime) :
    (TimeEntry.normalize_ts dt).second = 0
    ∧ (TimeEntry.normalize_ts dt).micro = 0
    ∧ (TimeEntry.normalize_ts dt).minute
        = ((TimeEntry.truncate_seconds dt).minute + 7) / 15 * 15 % 60
    ∧ (TimeEntry.normalize_ts dt).sec / 60
        = (TimeEntry.truncate_seconds dt).sec / 60
          + ((TimeEntry.truncate_seconds dt).minute + 7) / 15 * 15
          - (TimeEntry.truncate_seconds dt).minute := by
  simp only [TimeEntry.normalize_ts, TimeEntry.round_to_quarter_hour,
    TimeEntry.truncate_seconds, Datetime.second, Datetime.minute]
  exact ⟨by omega, by trivial, by omega, by omega⟩

theorem timedeltaSeconds_of_whole (a b : Datetime) (ha : a.micro = 0) (hb : b.micro = 0) :
    TimeEntry.timedeltaSeconds a b = (((a.sec : Int)) - ((b.sec : Int))).emod 86400 := by
  simp only [TimeEntry.timedeltaSeconds, ha, hb]
  congr 1
  rw [show (a.sec : Int) * 1000000 + (0 : Nat) - ((b.sec : Int) * 1000000 + (0 : Nat))
        = ((a.sec : Int) - (b.sec : Int)) * 1000000 by push_cast; ring]
  exact Int.mul_fdiv_cancel _ (by norm_num)

theorem timedeltaSeconds_nonneg (a b : Datetime) : 0 ≤ TimeEntry.timedeltaSeconds a b :=
  Int.emod_nonneg _ (by norm_num)

theorem timedeltaSeconds_lt (a b : Datetime) : TimeEntry.timedeltaSeconds a b < 86400 :=
  Int.emod_lt_of_pos _ (by norm_num)

/-- C1: boundary normalization first truncates seconds and sub-seconds to
zero, then rounds the minute-of-hour `m` by `target = (m + 7) / 15 * 15`,
shifting the timestamp by `target - m` minutes: the normalized instant is the
truncated one shifted by whole minutes (so hour/day/month/year rollover is
instant arithmetic and therefore exact), its seconds and sub-seconds are
zero, and its minute-of-hour is `target % 60`; the boundary table
m=0→0, 7→0, 8→15, 14→15, 15→15, 22→15, 23→30, 37→30, 38→45, 52→45,
53→next:00, 59→next:00 holds, incl. hour, day, month, leap-day and year
rollover instances. -/
theorem claim_C1_normalize_half_up_at_7 :
    (∀ dt : Datetime,
      TimeEntry.normalize_ts dt
        = ⟨(TimeEntry.truncate_seconds dt).sec
            + ((TimeEntry.truncate_seconds dt).minute + 7) / 15 * 15 * 60
            - (TimeEntry.truncate_seconds dt).minute * 60, 0⟩
      ∧ (TimeEntry.normalize_ts dt).second = 0
      ∧ (TimeEntry.normalize_ts dt).micro = 0
      ∧ (TimeEntry.normalize_ts dt).minute
          = ((TimeEntry.truncate_seconds dt).minute + 7) / 15 * 15 % 60
      ∧ (TimeEntry.normalize_ts dt).sec / 60
          = (TimeEntry.truncate_seconds dt).sec / 60
            + ((TimeEntry.truncate_seconds dt).minute + 7) / 15 * 15
            - (TimeEntry.truncate_seconds dt).minute)
    ∧ TimeEntry.normalize_ts (mkDt 2024 3 9 9 0 37) = mkDt 2024 3 9 9 0 0
    ∧ TimeEntry.normalize_ts (mkDt 2024 3 9 9 7 59) = mkDt 2024 3 9 9 0 0
    ∧ TimeEntry.normalize_ts (mkDt 2024 3 9 9 8 0) = mkDt 2024 3 9 9 15 0
    ∧ TimeEntry.normalize_ts (mkDt 2024 3 9 9 14 0) = mkDt 2024 3 9 9 15 0
    ∧ TimeEntry.normalize_ts (mkDt 2024 3 9 9 15 0) = mkDt 2024 3 9 9 15 0
    ∧ TimeEntry.normalize_ts (mkDt 2024 3 9 9 22 30) = mkDt 2024 3 9 9 15 0
    ∧ TimeEntry.normalize_ts (mkDt 2024 3 9 9 23 0) = mkDt 2024 3 9 9 30 0
    ∧ TimeEntry.normalize_ts (mkDt 2024 3 9 9 37 0) = mkDt 2024 3 9 9 30 0
    ∧ TimeEntry.normalize_ts (mkDt 2024 3 9 9 38 0) = mkDt 2024 3 9 9 45 0
    ∧ TimeEntry.normalize_ts (mkDt 2024 3 9 9 52 0) = mkDt 2024 3 9 9 45 0
    ∧ TimeEntry.normalize_ts (mkDt 2024 3 9 9 53 0) = mkDt 2024 3 9 10 0 0
    ∧ TimeEntry.normalize_ts (mkDt 2024 3 9 9 59 0) = mkDt 2024 3 9 10 0 0
    ∧ TimeEntry.normalize_ts (mkDt 2024 3 9 17 8 0) = mkDt 2024 3 9 17 15 0
    ∧ TimeEntry.normalize_ts (mkDt 2024 3 9 23 59 0) = mkDt 2024 3 10 0 0 0
    ∧ TimeEntry.normalize_ts (mkDt 2024 3 31 23 59 0) = mkDt 2024 4 1 0 0 0
    ∧ TimeEntry.normalize_ts (mkDt 2024 2 29 23 53 0) = mkDt 2024 3 1 0 0 0
    ∧ TimeEntry.normalize_ts (mkDt 2024 12 31 23 59 59) = mkDt 2025 1 1 0 0 0 := by
  refine ⟨fun dt => ⟨rfl, normalize_ts_fields dt⟩, ?_, ?_, ?_, ?_, ?_, ?_, ?_, ?_,
    ?_, ?_, ?_, ?_, ?_, ?_, ?_, ?_, ?_⟩ <;> decide

/-- C2 counterexample: for a 25-hour entry (start 2024-03-09T09:00:00,
stop 2024-03-10T10:00:00, both already quarter-aligned) the stored duration
is 3600, while the rounded-stop-minus-rounded-start interval is 90000
seconds — the day component of the timedelta is dropped. -/
theorem claim_C2_cex_day_dropped :
    TimeEntry.init (some (RawTs.valid (mkDt 2024 3 9 9 0 0)))
        (some (RawTs.valid (mkDt 2024 3 10 10 0 0)))
        none none none none none none none none none none none
      = Except.ok ⟨none, none, some (mkDt 2024 3 9 9 0 0),
          some (mkDt 2024 3 10 10 0 0), some 3600,
          none, none, none, none, none, none, none, none⟩
    ∧ ((mkDt 2024 3 10 10 0 0).sec : Int) - ((mkDt 2024 3 9 9 0 0).sec : Int) = 90000
    ∧ (3600 : Int) ≠ 90000 := by
  refine ⟨by decide, by decide, by decide⟩

/-- C2 (amended): when both boundaries are given and parse, the stored
duration is `((rounded stop).sec - (rounded start).sec) mod 86400` — the
seconds component of the Python timedelta, which agrees with the plain
difference only for intervals inside `[0, 86400)` — and when the stop is
absent the entry has no duration field at all. -/
theorem claim_C2_duration_is_timedelta_seconds (sdt pdt : Datetime)
    (duronly : Option Bool) (pid : Option Int) (billable : Option Bool)
    (guid : Option String) (at_field : Option String) (wid idv uid : Option Int)
    (description : Option String) (dur : Option Int) (tags : Option (List String)) :
    TimeEntry.init (some (RawTs.valid sdt)) (some (RawTs.valid pdt)) duronly pid
        billable guid at_field wid idv uid description dur tags
      = Except.ok ⟨description, tags, some (TimeEntry.normalize_ts sdt),
          some (TimeEntry.normalize_ts pdt),
          some ((((TimeEntry.normalize_ts pdt).sec : Int)
            - ((TimeEntry.normalize_ts sdt).sec : Int)).emod 86400),
          duronly, pid, billable, guid, at_field, wid, idv, uid⟩
    ∧ TimeEntry.init (some (RawTs.valid sdt)) none duronly pid billable guid
        at_field wid idv uid description dur tags
      = Except.ok ⟨description, tags, some (TimeEntry.normalize_ts sdt), none,
          none, duronly, pid, billable, guid, at_field, wid, idv, uid⟩ := by
  constructor
  · rw [init_both_valid,
      timedeltaSeconds_of_whole (TimeEntry.normalize_ts pdt) (TimeEntry.normalize_ts sdt)
        (normalize_ts_fields pdt).2.1 (normalize_ts_fields sdt).2.1]
  · exact init_start_only sdt duronly pid billable guid at_field wid idv uid
      description dur tags

/-- C3 counterexample: with a finished entry and a running entry (start only,
no `duration` attribute) on 2024-03-09, `get_time_per_day` raises
`AttributeError` instead of excluding the running entry; dropping the running
entry yields the mapping the claim expects, showing the failure is caused by
the unguarded `entry.duration` access. -/
theorem claim_C3_cex_attribute_error :
    get_time_per_day [ce_done, ce_running] = Except.error PyErr.attributeError
    ∧ get_time_per_day [ce_done] = Except.ok [(dateOrdOfCivil 2024 3 9, 3600)] := by
  refine ⟨by decide, by decide⟩

/-- C3 (amended): when every entry carries a `start` and a `duration`, the
aggregator returns a mapping whose value at each day key is exactly the sum
of the durations of the entries whose start falls on that day (and no key
appears for a day with no entry); but an entry lacking `start` or `duration`
(a running entry has no `duration`) makes the whole aggregation raise
`AttributeError` rather than being excluded from the sum. -/
theorem claim_C3_aggregate_day_totals (entries : List TimeEntry) :
    ((∀ e ∈ entries, e.start.isSome ∧ e.duration.isSome) →
      ∀ k, lookupResult (get_time_per_day entries) k = some (dayTotalOpt entries k))
    ∧ ((∃ e ∈ entries, e.start = none ∨ e.duration = none) →
      get_time_per_day entries = Except.error PyErr.attributeError) := by
  constructor
  · intro h k
    rw [get_time_per_day, foldlM_gtpd_ok entries [] h]
    simp only [lookupResult]
    rw [lookupKey_foldl_stepAdd]
    cases dayTotalOpt entries k <;> rfl
  · intro h
    exact foldlM_gtpd_err entries [] h

/-- C3 witness: the amended theorem applied to the concrete collections of
the counterexample. -/
theorem claim_C3_aggregate_day_totals_w :
    lookupResult (get_time_per_day [ce_done]) (dateOrdOfCivil 2024 3 9)
      = some (dayTotalOpt [ce_done] (dateOrdOfCivil 2024 3 9))
    ∧ get_time_per_day [ce_done, ce_running] = Except.error PyErr.attributeError :=
  ⟨(claim_C3_aggregate_day_totals [ce_done]).1 (by decide) (dateOrdOfCivil 2024 3 9),
   (claim_C3_aggregate_day_totals [ce_done, ce_running]).2
     ⟨ce_running, by decide, Or.inr rfl⟩⟩

/-- C4: on a day with a 5-hour total (shortfall 10800 s) and an anchor stop,
the gap filler does not synthesize any entry: as written it raises
`NameError` (its body references `_get_time_per_day`,
`_get_last_time_for_day` and `_round_to_quarter_hour`, none of which is
defined at module scope), and with those names resolved to the module-level
functions it still raises `TypeError` inside `get_last_time_for_day` (the
`entry.stop > date.min` comparison) before any filler can be built. -/
theorem claim_C4_fill_never_synthesizes :
    fill_with_admin_time_as_written [ce_short] = Except.error PyErr.nameError
    ∧ get_time_per_day [ce_short] = Except.ok [(dateOrdOfCivil 2024 3 9, 18000)]
    ∧ (18000 : Int) < 28800
    ∧ fill_with_admin_time [ce_short] = Except.error PyErr.typeError := by
  refine ⟨rfl, by decide, by decide, by decide⟩

/-- C5: for a day owning one entry with start 09:00 and stop 14:00, the
latest-stop finder raises `TypeError` (comparing the aware datetime `stop`
against the `date.min` sentinel) instead of returning the maximum stop;
only when no qualifying entry exists (no entry with a stop on the day, or
no entry on the day at all) does it return the `None` sentinel. -/
theorem claim_C5_latest_stop_type_error :
    get_last_time_for_day (dateOrdOfCivil 2024 3 9) [ce_done]
      = Except.error PyErr.typeError
    ∧ get_last_time_for_day (dateOrdOfCivil 2024 3 9) [ce_running] = Except.ok none
    ∧ get_last_time_for_day (dateOrdOfCivil 2024 4 1) [ce_done] = Except.ok none := by
  refine ⟨by decide, by decide, by decide⟩

/-- C6: a day with a shortfall (14400 s < 28800 s) but no qualifying anchor
stop does not fail with any `NoAnchorError` — no such class exists in the
module; the resolved gap filler reaches `last_time = None` and raises
`AttributeError` at `None.isoformat()` (and the code as written raises
`NameError` even earlier). -/
theorem claim_C6_no_anchor_attribute_error :
    get_time_per_day [ce_no_anchor] = Except.ok [(dateOrdOfCivil 2024 3 11, 14400)]
    ∧ (14400 : Int) < 28800
    ∧ get_last_time_for_day (dateOrdOfCivil 2024 3 11) [ce_no_anchor] = Except.ok none
    ∧ fill_with_admin_time [ce_no_anchor] = Except.error PyErr.attributeError
    ∧ fill_with_admin_time_as_written [ce_no_anchor] = Except.error PyErr.nameError := by
  refine ⟨by decide, by decide, by decide, by decide, rfl⟩

/-- C7: constructing a `TimeEntry` fails, and fails with the parse error,
exactly when a provided `start` or `stop` raw timestamp is one the parser
rejects; all valid/absent combinations construct successfully, and an entry
with only a start (still running) is accepted and simply lacks `duration`. -/
theorem claim_C7_parse_error_exactly (sdt pdt : Datetime) (stop : Option RawTs)
    (duronly : Option Bool) (pid : Option Int) (billable : Option Bool)
    (guid : Option String) (at_field : Option String) (wid idv uid : Option Int)
    (description : Option String) (dur : Option Int) (tags : Option (List String)) :
    TimeEntry.init (some RawTs.invalid) stop duronly pid billable guid at_field
        wid idv uid description dur tags = Except.error PyErr.parseError
    ∧ TimeEntry.init (some (RawTs.valid sdt)) (some RawTs.invalid) duronly pid
        billable guid at_field wid idv uid description dur tags
        = Except.error PyErr.parseError
    ∧ TimeEntry.init none (some RawTs.invalid) duronly pid billable guid at_field
        wid idv uid description dur tags = Except.error PyErr.parseError
    ∧ TimeEntry.init (some (RawTs.valid sdt)) none duronly pid billable guid
        at_field wid idv uid description dur tags
        = Except.ok ⟨description, tags, some (TimeEntry.normalize_ts sdt), none,
            none, duronly, pid, billable, guid, at_field, wid, idv, uid⟩
    ∧ isOkE (TimeEntry.init (some (RawTs.valid sdt)) (some (RawTs.valid pdt))
        duronly pid billable guid at_field wid idv uid description dur tags) = true
    ∧ isOkE (TimeEntry.init none (some (RawTs.valid pdt)) duronly pid billable
        guid at_field wid idv uid description dur tags) = true
    ∧ isOkE (TimeEntry.init none none duronly pid billable guid at_field wid idv
        uid description dur tags) = true := by
  exact ⟨rfl, rfl, rfl, rfl, rfl, rfl, rfl⟩

/-- C8: quarter-hour rounding is idempotent — for every timestamp with zero
seconds and sub-seconds (any minute-of-hour 0..59), applying
`_round_to_quarter_hour` to the already-rounded timestamp yields the same
timestamp. -/
theorem claim_C8_round_idempotent (dt : Datetime) (h1 : dt.second = 0)
    (h2 : dt.micro = 0) :
    TimeEntry.round_to_quarter_hour (TimeEntry.round_to_quarter_hour dt)
      = TimeEntry.round_to_quarter_hour dt := by
  have h1s : dt.sec % 60 = 0 := h1
  simp only [TimeEntry.round_to_quarter_hour, Datetime.mk.injEq]
  exact ⟨by omega, by trivial⟩

/-- C8 witness: idempotence at the concrete rounded-from-09:22 timestamp. -/
theorem claim_C8_round_idempotent_w :
    ((mkDt 2024 3 9 9 22 0).second = 0 ∧ (mkDt 2024 3 9 9 22 0).micro = 0)
    ∧ TimeEntry.round_to_quarter_hour
        (TimeEntry.round_to_quarter_hour (mkDt 2024 3 9 9 22 0))
      = TimeEntry.round_to_quarter_hour (mkDt 2024 3 9 9 22 0) :=
  ⟨⟨by decide, by decide⟩,
   claim_C8_round_idempotent (mkDt 2024 3 9 9 22 0) (by decide) (by decide)⟩

/-- C9 (implicit): the stored duration of any entry built with two valid
boundaries is the wrapped seconds component of the timedelta, always in
`[0, 86400)` whatever the interval length: the 25-hour interval
09:00→(next day)10:00 stores 3600 (the day component is dropped), and the
-15-minute interval 09:15→09:00 stores 85500, never a negative number. -/
theorem claim_C9_duration_day_range (sdt pdt : Datetime) (duronly : Option Bool)
    (pid : Option Int) (billable : Option Bool) (guid : Option String)
    (at_field : Option String) (wid idv uid : Option Int)
    (description : Option String) (dur : Option Int) (tags : Option (List String)) :
    (Except.map TimeEntry.duration
        (TimeEntry.init (some (RawTs.valid sdt)) (some (RawTs.valid pdt)) duronly
          pid billable guid at_field wid idv uid description dur tags)
      = Except.ok (some (TimeEntry.timedeltaSeconds (TimeEntry.normalize_ts pdt)
          (TimeEntry.normalize_ts sdt)))
    ∧ 0 ≤ TimeEntry.timedeltaSeconds (TimeEntry.normalize_ts pdt)
        (TimeEntry.normalize_ts sdt)
    ∧ TimeEntry.timedeltaSeconds (TimeEntry.normalize_ts pdt)
        (TimeEntry.normalize_ts sdt) < 86400)
    ∧ Except.map TimeEntry.duration
        (TimeEntry.init (some (RawTs.valid (mkDt 2024 3 9 9 0 0)))
          (some (RawTs.valid (mkDt 2024 3 10 10 0 0)))
          none none none none none none none none none none none)
      = Except.ok (some 3600)
    ∧ Except.map TimeEntry.duration
        (TimeEntry.init (some (RawTs.valid (mkDt 2024 3 9 9 15 0)))
          (some (RawTs.valid (mkDt 2024 3 9 9 0 0)))
          none none none none none none none none none none none)
      = Except.ok (some 85500) := by
  refine ⟨⟨?_, timedeltaSeconds_nonneg _ _, timedeltaSeconds_lt _ _⟩, by decide, by decide⟩
  rw [init_both_valid]
  rfl

/-- C10 (implicit): the `duration` constructor argument is never read — two
calls differing only in it build identical results — the constructed entry
has a `duration` attribute exactly when both `start` and `stop` were
provided (where it is the derived timedelta-seconds value, even if an
explicit `duration` was passed), and every passthrough field (description,
tags, pid, wid, uid, id, guid, at, billable, duronly) is stored exactly as
given. -/
theorem claim_C10_duration_arg_ignored (start stop : Option RawTs)
    (sdt pdt : Datetime) (duronly : Option Bool) (pid : Option Int)
    (billable : Option Bool) (guid : Option String) (at_field : Option String)
    (wid idv uid : Option Int) (description : Option String)
    (d1 d2 : Option Int) (tags : Option (List String)) :
    TimeEntry.init start stop duronly pid billable guid at_field wid idv uid
        description d1 tags
      = TimeEntry.init start stop duronly pid billable guid at_field wid idv uid
        description d2 tags
    ∧ TimeEntry.init none none duronly pid billable guid at_field wid idv uid
        description d1 tags
      = Except.ok ⟨description, tags, none, none, none, duronly, pid, billable,
          guid, at_field, wid, idv, uid⟩
    ∧ TimeEntry.init (some (RawTs.valid sdt)) none duronly pid billable guid
        at_field wid idv uid description d1 tags
      = Except.ok ⟨description, tags, some (TimeEntry.normalize_ts sdt), none,
          none, duronly, pid, billable, guid, at_field, wid, idv, uid⟩
    ∧ TimeEntry.init none (some (RawTs.valid pdt)) duronly pid billable guid
        at_field wid idv uid description d1 tags
      = Except.ok ⟨description, tags, none, some (TimeEntry.normalize_ts pdt),
          none, duronly, pid, billable, guid, at_field, wid, idv, uid⟩
    ∧ TimeEntry.init (some (RawTs.valid sdt)) (some (RawTs.valid pdt)) duronly
        pid billable guid at_field wid idv uid description d1 tags
      = Except.ok ⟨description, tags, some (TimeEntry.normalize_ts sdt),
          some (TimeEntry.normalize_ts pdt),
          some (TimeEntry.timedeltaSeconds (TimeEntry.normalize_ts pdt)
            (TimeEntry.normalize_ts sdt)),
          duronly, pid, billable, guid, at_field, wid, idv, uid⟩ := by
  refine ⟨rfl,
    init_none_none duronly pid billable guid at_field wid idv uid description d1 tags,
    init_start_only sdt duronly pid billable guid at_field wid idv uid description d1 tags,
    init_stop_only pdt duronly pid billable guid at_field wid idv uid description d1 tags,
    init_both_valid sdt pdt duronly pid billable guid at_field wid idv uid description d1 tags⟩
